import Mathlib

/-!
Verification of the subscription-reconciling streaming client of the
real-time market monitoring dashboard.

The embedding below is a shallow model of the client-side logic in
`src/frontend/src/hooks/useWebSocket.ts` (the `useWebSocket` hook, the
`MarketDataProvider` context that owns the watchlist, and the heartbeat
effect).  React state cells (`useState`/`useRef`) become fields of an
explicit state record; each event handler of the source (`onopen`,
`onmessage`, `onclose`, the scheduled reconnect timeout, the heartbeat
interval callback, and the public `subscribe` / `unsubscribe` /
`disconnect` operations) becomes a function from state to state, returning
in addition the list of frames it writes to the socket.  JS numbers in the
market record are modelled as `Int`: no claim computes with them, they are
only stored and compared for identity.  `JSON.parse` validates nothing
beyond JSON syntax, so the `data` field of a parsed frame is modelled as a
`MarketPayload` that is either a well-formed record or an arbitrary truthy
JSON value of the wrong shape.  `timestamp` is a `String` in the
source (`timestamp: string`) and stays one here; ISO-8601 strings compare
lexicographically.  JS `String.prototype.toUpperCase` on ASCII tickers is
`toUpperCase`.
-/

namespace MarketClient

/-- `MarketData` record, from the `MarketData` interface of
`useWebSocket.ts` (symbol, price, change, change_percent, volume, high,
low, open, timestamp).  Numeric fields are JS numbers in the source; they
are carried opaquely here as `Int` since the client never computes with
them. The `open` field is renamed `open_` (`open` is a Lean keyword). -/
structure MarketData where
  symbol : String
  price : Int
  change : Int
  change_percent : Int
  volume : Int
  high : Int
  low : Int
  open_ : Int
  timestamp : String
  deriving DecidableEq, Repr

/-- The runtime value of the `data` field of a parsed frame.  The TS
annotation `data?: MarketData` is erased at runtime: `JSON.parse`
performs no structural validation, so a present `data` value is either a
well-formed market record or any other truthy JSON value (a number, a
string, an object of the wrong shape), carried here with its JSON text.
A present-but-falsy `data` (`0`, `""`, `null`, `false`) fails the
handler's truthiness guard exactly like an absent one and is modelled as
absent. -/
inductive MarketPayload
  | record (r : MarketData)
  | malformed (json : String)
  deriving DecidableEq, Repr

/-- `WebSocketMessage` interface of `useWebSocket.ts`: a decoded inbound
frame with a `type` tag and optional `symbol`, `data`, `symbols` fields.
The `data` field carries whatever truthy value `JSON.parse` produced,
validated or not. -/
structure WebSocketMessage where
  type : String
  symbol : Option String := none
  data : Option MarketPayload := none
  symbols : Option (List String) := none
  timestamp : String
  deriving DecidableEq, Repr

/-- Ready state of the underlying `WebSocket` object
(`CONNECTING`/`OPEN`/`CLOSING`/`CLOSED`). -/
inductive ReadyState
  | connecting
  | opened
  | closing
  | closed
  deriving DecidableEq, Repr

/-- The `connectionStatus` React state:
`'connecting' | 'connected' | 'disconnected' | 'error'`. -/
inductive ConnStatus
  | connecting
  | connected
  | disconnected
  | error
  deriving DecidableEq, Repr

/-- An outbound frame written by `sendMessage` (serialized to JSON in the
source).  The three kinds the client ever sends are built in `subscribe`,
`unsubscribe` and the heartbeat callback. -/
inductive OutFrame
  | subscribe (symbols : List String)
  | unsubscribe (symbols : List String)
  | ping (timestamp : String)
  deriving DecidableEq, Repr

/-- State of one `useWebSocket` hook instance: `ws.current` (modelled by
its ready state, `none` when the ref is null), the `isConnected`,
`marketData`, `connectionStatus`, `lastMessage` React states, the
`reconnectTimeoutRef` (modelled as the delay of the scheduled timeout,
`none` when no timeout is pending) and the `reconnectAttempts` ref. -/
structure ClientState where
  ws : Option ReadyState
  isConnected : Bool
  marketData : String → Option MarketPayload
  connectionStatus : ConnStatus
  lastMessage : Option WebSocketMessage
  pendingReconnect : Option Nat
  reconnectAttempts : Nat

/-- `const maxReconnectAttempts = 5;` (useWebSocket.ts line 41). -/
def maxReconnectAttempts : Nat := 5

/-- The state of a freshly mounted hook: all refs null / counters zero,
cache empty, status `'disconnected'`. -/
def initialState : ClientState :=
  { ws := none
    isConnected := false
    marketData := fun _ => none
    connectionStatus := ConnStatus.disconnected
    lastMessage := none
    pendingReconnect := none
    reconnectAttempts := 0 }

/-- `connect`: bail out if the socket is already open, otherwise set
status `'connecting'` and create a new `WebSocket` (ready state
CONNECTING).  The success path of the `try` block. -/
def connect (st : ClientState) : ClientState :=
  if st.ws = some ReadyState.opened then st
  else { st with connectionStatus := ConnStatus.connecting
                 ws := some ReadyState.connecting }

/-- The `onopen` handler: socket becomes OPEN, `isConnected := true`,
status `'connected'`, `reconnectAttempts.current = 0`. -/
def onopen (st : ClientState) : ClientState :=
  { st with ws := some ReadyState.opened
            isConnected := true
            connectionStatus := ConnStatus.connected
            reconnectAttempts := 0 }

/-- The guard of the `onmessage` handler:
`message.type === 'market_data' && message.symbol && message.data`.
In JS a missing or empty-string `symbol` is falsy; the `data` check is
pure truthiness — any present (truthy) value passes, with no structural
validation of the payload whatsoever. -/
def marketDataGuard (m : WebSocketMessage) : Bool :=
  m.type == "market_data" &&
  (match m.symbol with
   | some s => !(s == "")
   | none => false) &&
  m.data.isSome

/-- The object-spread update
`{...prev, [message.symbol!]: message.data!}`: point update of the
per-symbol cache with whatever payload the frame carried. -/
def cacheUpdate (c : String → Option MarketPayload) (k : String)
    (v : MarketPayload) : String → Option MarketPayload :=
  fun x => if x = k then some v else c x

/-- The `onmessage` handler.  `raw = none` models a frame on which
`JSON.parse` threw: the `catch` branch only logs, so the state is
untouched.  A parsed message is stored in `lastMessage`; if the
`market_data` guard holds, the cache entry for `message.symbol` is
replaced by `message.data` — with no timestamp comparison of any kind. -/
def onmessage (st : ClientState) (raw : Option WebSocketMessage) :
    ClientState :=
  match raw with
  | none => st
  | some m =>
    let st1 := { st with lastMessage := some m }
    if marketDataGuard m then
      match m.symbol, m.data with
      | some sym, some d =>
        { st1 with marketData := cacheUpdate st1.marketData sym d }
      | _, _ => st1
    else st1

/-- The backoff delay computed inside `onclose`:
`Math.min(1000 * Math.pow(2, reconnectAttempts.current), 30000)`,
evaluated after `reconnectAttempts.current++`, so `attempt` here is the
already-incremented counter (the 1-indexed number of the scheduled
attempt). -/
def nextDelay (attempt : Nat) : Nat :=
  min (1000 * 2 ^ attempt) 30000

/-- The `onclose` handler: socket CLOSED, `isConnected := false`, status
`'disconnected'`; then, iff the close code is not 1000 and fewer than
`maxReconnectAttempts` attempts have been made, increment the attempt
counter and schedule a reconnect timeout with the backoff delay. -/
def onclose (st : ClientState) (code : Nat) : ClientState :=
  let st1 := { st with ws := some ReadyState.closed
                       isConnected := false
                       connectionStatus := ConnStatus.disconnected }
  if code ≠ 1000 ∧ st1.reconnectAttempts < maxReconnectAttempts then
    { st1 with reconnectAttempts := st1.reconnectAttempts + 1
               pendingReconnect :=
                 some (nextDelay (st1.reconnectAttempts + 1)) }
  else st1

/-- `disconnect`: clear any pending reconnect timeout, and when a socket
exists call `ws.current.close(1000, 'Manual disconnect')` and null the
ref; finally `isConnected := false`, status `'disconnected'`.  The second
component is the close code passed to `close`, `none` when no socket
existed. -/
def disconnect (st : ClientState) : ClientState × Option Nat :=
  let st1 := { st with pendingReconnect := none }
  match st1.ws with
  | some _ =>
    ({ st1 with ws := none
                isConnected := false
                connectionStatus := ConnStatus.disconnected }, some 1000)
  | none =>
    ({ st1 with isConnected := false
                connectionStatus := ConnStatus.disconnected }, none)

/-- JS `String.prototype.toUpperCase` (`s.toUpperCase()` in the source),
as character-wise uppercasing of the underlying character list.  This is
extensionally `toUpperCase`, but mapping over `String.data` directly
keeps the definition reducible in the kernel (`String.mapAux` recursion
does not reduce there). -/
def toUpperCase (s : String) : String :=
  String.mk (s.data.map Char.toUpper)

/-- `sendMessage`: write the frame iff
`ws.current?.readyState === WebSocket.OPEN`; otherwise only
`console.warn` — nothing is sent, nothing is thrown, nothing is queued
(the state carries no buffer at all). -/
def sendMessage (st : ClientState) (msg : OutFrame) : List OutFrame :=
  if st.ws = some ReadyState.opened then [msg] else []

/-- `subscribe`: unconditionally build a `subscribe` frame with the
uppercased symbols and hand it to `sendMessage`.  No set state is
consulted or updated. -/
def subscribe (st : ClientState) (symbols : List String) : List OutFrame :=
  sendMessage st (OutFrame.subscribe (symbols.map toUpperCase))

/-- `unsubscribe`: same shape as `subscribe`. -/
def unsubscribe (st : ClientState) (symbols : List String) :
    List OutFrame :=
  sendMessage st (OutFrame.unsubscribe (symbols.map toUpperCase))

/-- One firing of the 30-second heartbeat interval: if the socket is OPEN,
send a `ping` frame stamped with the current time.  The callback touches
no state. -/
def heartbeatTick (st : ClientState) (now : String) : List OutFrame :=
  if st.ws = some ReadyState.opened
  then sendMessage st (OutFrame.ping now)
  else []

/-- The resubscription effect of `MarketDataProvider`
(`useEffect` on `[webSocket.isConnected, watchlist, webSocket]`): when
`isConnected` and the watchlist is nonempty, call
`webSocket.subscribe(watchlist)`.  Fires on every transition into
Connected. -/
def resubscribeEffect (st : ClientState) (watchlist : List String) :
    List OutFrame :=
  if st.isConnected ∧ watchlist.length > 0
  then subscribe st watchlist
  else []

/-- `addToWatchlist` of `MarketDataProvider`: uppercase the inputs, keep
those not already in the watchlist (each checked against the OLD
watchlist only — duplicates inside one call's input are not removed),
and if any remain, append them and, when connected, subscribe to exactly
the new ones.  Returns the new watchlist and the frames sent. -/
def addToWatchlist (watchlist : List String) (st : ClientState)
    (symbols : List String) : List String × List OutFrame :=
  let upperSymbols := symbols.map toUpperCase
  let newSymbols := upperSymbols.filter (fun s => !(watchlist.contains s))
  if newSymbols.length > 0 then
    (watchlist ++ newSymbols,
     if st.isConnected then subscribe st newSymbols else [])
  else (watchlist, [])

/-- `removeFromWatchlist`: uppercase the inputs, filter them out of the
watchlist, and when connected send an `unsubscribe` for the inputs —
unconditionally, whether or not anything was actually removed. -/
def removeFromWatchlist (watchlist : List String) (st : ClientState)
    (symbols : List String) : List String × List OutFrame :=
  let upperSymbols := symbols.map toUpperCase
  (watchlist.filter (fun s => !(upperSymbols.contains s)),
   if st.isConnected then unsubscribe st upperSymbols else [])

/-- The events that can reach one hook instance: the mount effect's
`connect()` call, the socket callbacks, the firing of the scheduled
reconnect timeout, one heartbeat interval tick, and the public calls. -/
inductive ClientEvent
  | callConnect
  | wsOpen
  | wsMessage (raw : Option WebSocketMessage)
  | wsClose (code : Nat)
  | timerFire
  | heartbeat (now : String)
  | callSubscribe (symbols : List String)
  | callUnsubscribe (symbols : List String)
  | callDisconnect

/-- Dispatch one event to its handler; result state plus frames written
to the socket during the event. -/
def step (st : ClientState) (e : ClientEvent) : ClientState × List OutFrame :=
  match e with
  | ClientEvent.callConnect => (connect st, [])
  | ClientEvent.wsOpen => (onopen st, [])
  | ClientEvent.wsMessage raw => (onmessage st raw, [])
  | ClientEvent.wsClose code => (onclose st code, [])
  | ClientEvent.timerFire =>
    match st.pendingReconnect with
    | some _ => (connect { st with pendingReconnect := none }, [])
    | none => (st, [])
  | ClientEvent.heartbeat now => (st, heartbeatTick st now)
  | ClientEvent.callSubscribe symbols => (st, subscribe st symbols)
  | ClientEvent.callUnsubscribe symbols => (st, unsubscribe st symbols)
  | ClientEvent.callDisconnect => ((disconnect st).1, [])

/-- Run a sequence of events, collecting every frame written. -/
def run (st : ClientState) : List ClientEvent → ClientState × List OutFrame
  | [] => (st, [])
  | e :: es =>
    let p := step st e
    let q := run p.1 es
    (q.1, p.2 ++ q.2)

/-- Combined state of the provider: the hook state plus the watchlist it
owns. -/
structure AppState where
  client : ClientState
  watchlist : List String

/-- Inbound frames are handled entirely inside `useWebSocket`; the
provider registers no message handler, so a message leaves the watchlist
untouched by construction. -/
def appOnMessage (a : AppState) (raw : Option WebSocketMessage) : AppState :=
  { a with client := onmessage a.client raw }

/-- A concrete connected client state, as produced by mounting the hook
and receiving the `onopen` callback. -/
def connectedState : ClientState :=
  onopen (connect initialState)

/-- A concrete market record for AAPL observed at time
`2024-01-01T00:00:01Z` (the earlier timestamp `t1`). -/
def recT1 : MarketData :=
  { symbol := "AAPL", price := 150, change := 1, change_percent := 1
    volume := 100, high := 151, low := 149, open_ := 150
    timestamp := "2024-01-01T00:00:01Z" }

/-- A concrete market record for AAPL observed one second later
(`t2`, the newer one). -/
def recT2 : MarketData :=
  { symbol := "AAPL", price := 151, change := 2, change_percent := 1
    volume := 200, high := 151, low := 149, open_ := 150
    timestamp := "2024-01-01T00:00:02Z" }

/-- The `market_data` frame carrying `recT1`. -/
def msgT1 : WebSocketMessage :=
  { type := "market_data", symbol := some "AAPL"
    data := some (MarketPayload.record recT1)
    timestamp := "2024-01-01T00:00:01Z" }

/-- The `market_data` frame carrying `recT2`. -/
def msgT2 : WebSocketMessage :=
  { type := "market_data", symbol := some "AAPL"
    data := some (MarketPayload.record recT2)
    timestamp := "2024-01-01T00:00:02Z" }

/-- A well-formed frame whose `type` tag the client does not recognize. -/
def bogusMsg : WebSocketMessage :=
  { type := "mystery", timestamp := "2024-01-01T00:00:03Z" }

/-- The parse of `{"type":"market_data","symbol":"AAPL","data":42,...}`:
valid JSON, recognized type, truthy `symbol` and truthy `data` — but the
payload is a bare number, not a market record. -/
def invalidDataMsg : WebSocketMessage :=
  { type := "market_data", symbol := some "AAPL"
    data := some (MarketPayload.malformed "42")
    timestamp := "2024-01-01T00:00:04Z" }

/-- Mount, connect, then three heartbeat ticks 30 seconds apart with no
`pong` (indeed no inbound frame at all) in between: 60 seconds — the
spec's default `pongTimeout` — elapse after the first ping. -/
def noPongTrace : List ClientEvent :=
  [ClientEvent.callConnect, ClientEvent.wsOpen,
   ClientEvent.heartbeat "T0", ClientEvent.heartbeat "T30",
   ClientEvent.heartbeat "T60"]

/-- A state in which five reconnect attempts have already been made. -/
def exhaustedState : ClientState :=
  { initialState with reconnectAttempts := 5 }

/-- The `onmessage` handler only ever writes `lastMessage` and
`marketData`: the socket, the connection flags and the whole reconnect
machinery are untouched by any inbound frame. -/
theorem onmessage_preserves (st : ClientState)
    (raw : Option WebSocketMessage) :
    (onmessage st raw).ws = st.ws ∧
    (onmessage st raw).isConnected = st.isConnected ∧
    (onmessage st raw).connectionStatus = st.connectionStatus ∧
    (onmessage st raw).reconnectAttempts = st.reconnectAttempts ∧
    (onmessage st raw).pendingReconnect = st.pendingReconnect := by
  cases raw with
  | none => simp [onmessage]
  | some m =>
    simp only [onmessage]
    by_cases hg : marketDataGuard m <;>
      cases hs : m.symbol <;> cases hd : m.data <;> simp [hg, hs, hd]

/-- When the close code is abnormal and the attempt counter is still
below the maximum, `onclose` increments the counter and schedules a
reconnect with the backoff delay. -/
theorem onclose_schedules (st : ClientState) (code : Nat)
    (hc : code ≠ 1000) (hlt : st.reconnectAttempts < maxReconnectAttempts) :
    (onclose st code).pendingReconnect =
      some (nextDelay (st.reconnectAttempts + 1)) ∧
    (onclose st code).reconnectAttempts = st.reconnectAttempts + 1 := by
  simp only [onclose]
  rw [if_pos ⟨hc, hlt⟩]
  exact ⟨rfl, rfl⟩

/-- When the attempt counter has reached the maximum, `onclose` leaves
both the counter and the pending-timeout slot alone. -/
theorem onclose_exhausted (st : ClientState) (code : Nat)
    (hge : maxReconnectAttempts ≤ st.reconnectAttempts) :
    (onclose st code).pendingReconnect = st.pendingReconnect ∧
    (onclose st code).reconnectAttempts = st.reconnectAttempts := by
  simp only [onclose]
  rw [if_neg]
  · exact ⟨rfl, rfl⟩
  · intro h
    exact absurd h.2 (Nat.not_lt.mpr hge)

/-- A close with code 1000 never schedules a reconnect, whatever the
attempt counter. -/
theorem onclose_clean (st : ClientState) :
    (onclose st 1000).pendingReconnect = st.pendingReconnect ∧
    (onclose st 1000).reconnectAttempts = st.reconnectAttempts := by
  simp only [onclose]
  rw [if_neg]
  · exact ⟨rfl, rfl⟩
  · intro h
    exact h.1 rfl

/-- For every delay index at or past 5 the doubling has crossed the
30-second cap. -/
theorem nextDelay_capped (j : Nat) (hj : 5 ≤ j) : nextDelay j = 30000 := by
  have h32 : 2 ^ 5 ≤ 2 ^ j := Nat.pow_le_pow_right (by decide) hj
  have hle : 30000 ≤ 1000 * 2 ^ j := by
    calc 30000 ≤ 1000 * 2 ^ 5 := by decide
    _ ≤ 1000 * 2 ^ j := Nat.mul_le_mul_left 1000 h32
  simp [nextDelay, Nat.min_eq_right hle]

/-- C3 counterexample: the first abnormal close from a fresh client
(attempt counter 0) schedules the first reconnect with a delay of
2000 ms, not the 1000 ms the claim requires: the code computes
`min(1000 * 2^k, 30000)` with the already-incremented counter `k`, not
`min(1000 * 2^(k-1), 30000)`. -/
theorem C3_counterexample :
    (onclose initialState 1006).pendingReconnect = some 2000 ∧
    nextDelay 1 = 2000 ∧ (2000 : Nat) ≠ 1000 := by decide

/-- C3 amended: the backoff delay before the k-th reconnect attempt
(1 ≤ k ≤ 5; the counter never exceeds 5) equals
`min(1000 * 2^k, 30000)` ms: 2 s, 4 s, 8 s, 16 s, then the 30 s cap,
which holds for every index at or past 5. -/
theorem C3_amended (k : Nat) (st : ClientState) (code : Nat)
    (hk1 : 1 ≤ k) (hk5 : k ≤ 5) (ha : st.reconnectAttempts = k - 1)
    (hc : code ≠ 1000) :
    (onclose st code).pendingReconnect = some (nextDelay k) ∧
    nextDelay 1 = 2000 ∧ nextDelay 2 = 4000 ∧ nextDelay 3 = 8000 ∧
    nextDelay 4 = 16000 ∧ nextDelay 5 = 30000 := by
  have hlt : st.reconnectAttempts < maxReconnectAttempts := by
    simp only [maxReconnectAttempts]
    omega
  have hsum : st.reconnectAttempts + 1 = k := by omega
  have hs := (onclose_schedules st code hc hlt).1
  rw [hsum] at hs
  exact ⟨hs, by decide, by decide, by decide, by decide, by decide⟩

/-- C3 witness at k = 3: a third abnormal close (counter at 2) schedules
an 8-second delay. -/
theorem C3_witness :
    ClientState.pendingReconnect
      (onclose { initialState with reconnectAttempts := 2 } 1006) =
        some (nextDelay 3) ∧
    nextDelay 1 = 2000 ∧ nextDelay 2 = 4000 ∧ nextDelay 3 = 8000 ∧
    nextDelay 4 = 16000 ∧ nextDelay 5 = 30000 :=
  C3_amended 3 { initialState with reconnectAttempts := 2 } 1006
    (by decide) (by decide) rfl (by decide)

/-- C4 counterexample: with the attempt counter at 5
(`maxReconnectAttempts`), an abnormal close (code 1006) schedules no
reconnect at all — reconnection is NOT unbounded, a sixth attempt never
happens. -/
theorem C4_counterexample :
    (onclose exhaustedState 1006).pendingReconnect = none ∧
    (onclose exhaustedState 1006).reconnectAttempts = 5 := by decide

/-- C4 amended: an abnormal close (code ≠ 1000) schedules a backoff
reconnect only while fewer than `maxReconnectAttempts = 5` attempts have
been made; once the counter reaches 5, an abnormal close schedules
nothing — retries are bounded by 5, not unbounded, and a sixth failure
is fatal. -/
theorem C4_amended (st : ClientState) (code : Nat) (hc : code ≠ 1000) :
    (st.reconnectAttempts < maxReconnectAttempts →
      (onclose st code).pendingReconnect =
        some (nextDelay (st.reconnectAttempts + 1)) ∧
      (onclose st code).reconnectAttempts = st.reconnectAttempts + 1) ∧
    (maxReconnectAttempts ≤ st.reconnectAttempts →
      (onclose st code).pendingReconnect = st.pendingReconnect ∧
      (onclose st code).reconnectAttempts = st.reconnectAttempts) := by
  exact ⟨fun hlt => onclose_schedules st code hc hlt,
         fun hge => onclose_exhausted st code hge⟩

/-- C4 witness: a fresh client retries after an abnormal close, and an
exhausted one does not. -/
theorem C4_witness :
    ((initialState.reconnectAttempts < maxReconnectAttempts →
      (onclose initialState 1006).pendingReconnect =
        some (nextDelay (initialState.reconnectAttempts + 1)) ∧
      (onclose initialState 1006).reconnectAttempts =
        initialState.reconnectAttempts + 1) ∧
    (maxReconnectAttempts ≤ initialState.reconnectAttempts →
      (onclose initialState 1006).pendingReconnect =
        initialState.pendingReconnect ∧
      (onclose initialState 1006).reconnectAttempts =
        initialState.reconnectAttempts)) :=
  C4_amended initialState 1006 (by decide)

/-- C5: shutting down while Connected passes close code 1000 to the
socket and clears the pending timer; the resulting close callback with
code 1000 schedules nothing and leaves the attempt counter alone, and
with no timer pending the reconnect timeout can never fire: no
subsequent connection attempt is ever scheduled. -/
theorem C5_clean_shutdown (st : ClientState)
    (hws : st.ws = some ReadyState.opened) :
    (disconnect st).2 = some 1000 ∧
    (disconnect st).1.pendingReconnect = none ∧
    (onclose (disconnect st).1 1000).pendingReconnect = none ∧
    (onclose (disconnect st).1 1000).reconnectAttempts =
      (disconnect st).1.reconnectAttempts ∧
    step (onclose (disconnect st).1 1000) ClientEvent.timerFire =
      (onclose (disconnect st).1 1000, []) := by
  have h2 : (disconnect st).2 = some 1000 := by simp [disconnect, hws]
  have h1 : (disconnect st).1.pendingReconnect = none := by
    simp [disconnect, hws]
  have hA : (onclose (disconnect st).1 1000).pendingReconnect = none :=
    (onclose_clean _).1.trans h1
  refine ⟨h2, h1, hA, (onclose_clean _).2, ?_⟩
  simp only [step]
  rw [hA]

/-- C5 witness on the concrete connected state. -/
theorem C5_witness :
    (disconnect connectedState).2 = some 1000 ∧
    (disconnect connectedState).1.pendingReconnect = none ∧
    (onclose (disconnect connectedState).1 1000).pendingReconnect = none ∧
    (onclose (disconnect connectedState).1 1000).reconnectAttempts =
      (disconnect connectedState).1.reconnectAttempts ∧
    step (onclose (disconnect connectedState).1 1000) ClientEvent.timerFire =
      (onclose (disconnect connectedState).1 1000, []) :=
  C5_clean_shutdown connectedState (by decide)

/-- C1 counterexample: `addToWatchlist` filters each input symbol only
against the OLD watchlist, so one call with a duplicated input produces a
watchlist with duplicates, and the resubscribe-on-connect frame then
carries the duplicate — refuting "no duplicates".  Moreover with an empty
watchlist no subscribe frame is sent at all — refuting "exactly one
subscribe frame" for the desired set D = ∅. -/
theorem C1_counterexample :
    (addToWatchlist [] connectedState ["AAPL", "AAPL"]).1 =
      ["AAPL", "AAPL"] ∧
    resubscribeEffect connectedState ["AAPL", "AAPL"] =
      [OutFrame.subscribe ["AAPL", "AAPL"]] ∧
    ¬ (["AAPL", "AAPL"] : List String).Nodup ∧
    resubscribeEffect connectedState [] = [] := by decide

/-- C1 amended: when the connection transitions into Connected with a
NONEMPTY watchlist, the provider effect sends exactly one subscribe frame
whose symbol list is precisely the uppercased watchlist — so its symbols
as a set are exactly the desired set, independently of anything
acknowledged before the disconnect (no acknowledged-set state exists),
but the list carries a duplicate whenever the watchlist does, and an
empty watchlist sends no frame. -/
theorem C1_amended (st : ClientState) (w : List String)
    (hconn : st.isConnected = true)
    (hws : st.ws = some ReadyState.opened) (hne : w ≠ []) :
    resubscribeEffect st w =
      [OutFrame.subscribe (w.map toUpperCase)] := by
  have hlen : 0 < w.length := List.length_pos.mpr hne
  simp [resubscribeEffect, subscribe, sendMessage, hconn, hws, hlen]

/-- C1 witness: on reconnect with watchlist AAPL, MSFT exactly one frame
carrying both symbols goes out. -/
theorem C1_witness :
    resubscribeEffect connectedState ["AAPL", "MSFT"] =
      [OutFrame.subscribe ["AAPL", "MSFT"]] :=
  C1_amended connectedState ["AAPL", "MSFT"] (by decide) (by decide)
    (by decide)

/-- C2 counterexample: the `onmessage` handler never compares timestamps.
Applying the newer record (t2) and then the stale one (t1 < t2) leaves
the cache holding the t1 record, not the t2 one, and the stale frame
still updates `lastMessage` (the change notification callers observe). -/
theorem C2_counterexample :
    recT1.timestamp.data < recT2.timestamp.data ∧
    ClientState.marketData
      (onmessage (onmessage connectedState (some msgT2)) (some msgT1))
      "AAPL" = some (MarketPayload.record recT1) ∧
    some (MarketPayload.record recT1) ≠ some (MarketPayload.record recT2) ∧
    ClientState.lastMessage
      (onmessage (onmessage connectedState (some msgT2)) (some msgT1)) =
      some msgT1 := by decide

/-- C2 amended: the cache is last-writer-wins by ARRIVAL order, with no
timestamp check of any kind: every accepted `market_data` frame for a
symbol overwrites that symbol's cache entry and updates `lastMessage`,
even when its timestamp is older than the one already cached; applying
t2 then t1 leaves the cache holding the t1 record. -/
theorem C2_amended (st : ClientState) (m : WebSocketMessage)
    (sym : String) (d : MarketPayload) (hg : marketDataGuard m = true)
    (hs : m.symbol = some sym) (hd : m.data = some d) :
    (onmessage st (some m)).marketData sym = some d ∧
    (onmessage st (some m)).lastMessage = some m := by
  simp [onmessage, hg, hs, hd, cacheUpdate]

/-- C2 witness: the stale t1 frame overwrites a cache already holding
the newer t2 record. -/
theorem C2_witness :
    ClientState.marketData
      (onmessage (onmessage connectedState (some msgT2)) (some msgT1))
      "AAPL" = some (MarketPayload.record recT1) ∧
    ClientState.lastMessage
      (onmessage (onmessage connectedState (some msgT2)) (some msgT1)) =
      some msgT1 :=
  C2_amended (onmessage connectedState (some msgT2)) msgT1 "AAPL"
    (MarketPayload.record recT1) (by decide) rfl rfl

/-- C6 counterexample: `subscribe` consults no desired-set state, so two
successive calls while connected send two subscribe frames, not one; and
`removeFromWatchlist` of a symbol never added leaves the watchlist
unchanged yet still sends an `unsubscribe` frame — both network-send
no-op claims fail. -/
theorem C6_counterexample :
    subscribe connectedState ["AAPL"] ++ subscribe connectedState ["AAPL"] =
      [OutFrame.subscribe ["AAPL"], OutFrame.subscribe ["AAPL"]] ∧
    removeFromWatchlist ["AAPL"] connectedState ["MSFT"] =
      (["AAPL"], [OutFrame.unsubscribe ["MSFT"]]) := by decide

/-- C6 amended: `subscribe` is a raw send — each of two successive calls
while connected emits its own subscribe frame (two in total);
`addToWatchlist` of an already-present symbol is a genuine no-op (state
unchanged, nothing sent); `removeFromWatchlist` of a never-added,
already-normalized symbol leaves the watchlist unchanged but still sends
one `unsubscribe` frame while connected. -/
theorem C6_amended (st : ClientState) (w : List String) (X Y S : String)
    (hws : st.ws = some ReadyState.opened) (hconn : st.isConnected = true)
    (hX : toUpperCase X ∈ w)
    (hS : toUpperCase S ∉ w) (hSu : toUpperCase S = S) :
    subscribe st [Y] ++ subscribe st [Y] =
      [OutFrame.subscribe [toUpperCase Y],
       OutFrame.subscribe [toUpperCase Y]] ∧
    addToWatchlist w st [X] = (w, []) ∧
    removeFromWatchlist w st [S] =
      (w, [OutFrame.unsubscribe [S]]) := by
  have hS2 : S ∉ w := hSu ▸ hS
  refine ⟨?_, ?_, ?_⟩
  · simp [subscribe, sendMessage, hws]
  · simp [addToWatchlist, hX]
  · have hfilter : List.filter (fun s => ! [S].contains s) w = w := by
      refine List.filter_eq_self.mpr ?_
      intro a ha
      simp only [List.contains_cons, List.contains_nil, Bool.or_false,
        Bool.not_eq_eq_eq_not, Bool.not_true, beq_eq_false_iff_ne, ne_eq]
      intro hEq
      exact hS2 (hEq ▸ ha)
    simp [removeFromWatchlist, unsubscribe, sendMessage, hws, hconn, hSu,
      hfilter]
    exact fun a ha hEq => hS2 (hEq ▸ ha)

/-- C6 witness at concrete inputs: watchlist AAPL, double-subscribing
GOOGL, re-adding AAPL, removing the never-added MSFT. -/
theorem C6_witness :
    subscribe connectedState ["GOOGL"] ++ subscribe connectedState ["GOOGL"] =
      [OutFrame.subscribe ["GOOGL"], OutFrame.subscribe ["GOOGL"]] ∧
    addToWatchlist ["AAPL"] connectedState ["AAPL"] = (["AAPL"], []) ∧
    removeFromWatchlist ["AAPL"] connectedState ["MSFT"] =
      (["AAPL"], [OutFrame.unsubscribe ["MSFT"]]) :=
  C6_amended connectedState ["AAPL"] "AAPL" "GOOGL" "MSFT" (by decide)
    (by decide) (by decide) (by decide) (by decide)

/-- C7 counterexample: connect, then three heartbeat ticks 30 s apart
with no inbound frame at all — 60 s (the spec's default `pongTimeout`)
pass after the first ping with no `pong`.  Three pings go out, yet the
socket is still OPEN, the attempt counter is still 0 and no reconnect is
scheduled: the client keeps no pong state and never closes a session for
a missing pong. -/
theorem C7_counterexample :
    (run initialState noPongTrace).2 =
      [OutFrame.ping "T0", OutFrame.ping "T30", OutFrame.ping "T60"] ∧
    (run initialState noPongTrace).1.ws = some ReadyState.opened ∧
    (run initialState noPongTrace).1.reconnectAttempts = 0 ∧
    (run initialState noPongTrace).1.pendingReconnect = none := by decide

/-- C7 amended: while the socket is OPEN each 30-second heartbeat tick
sends exactly one `ping` frame (and none otherwise), and the tick changes
no state; no inbound frame — and in particular neither a `pong` nor its
absence — ever closes the socket, touches the reconnect attempt counter,
or schedules a reconnect: there is no pong-timeout path at all. -/
theorem C7_amended (st : ClientState) (now : String)
    (raw : Option WebSocketMessage) :
    step st (ClientEvent.heartbeat now) =
      (st, if st.ws = some ReadyState.opened then [OutFrame.ping now]
           else []) ∧
    (step st (ClientEvent.wsMessage raw)).1.ws = st.ws ∧
    (step st (ClientEvent.wsMessage raw)).1.reconnectAttempts =
      st.reconnectAttempts ∧
    (step st (ClientEvent.wsMessage raw)).1.pendingReconnect =
      st.pendingReconnect := by
  refine ⟨?_, ?_, ?_, ?_⟩
  · by_cases h : st.ws = some ReadyState.opened <;>
      simp [step, heartbeatTick, sendMessage, h]
  · exact (onmessage_preserves st raw).1
  · exact (onmessage_preserves st raw).2.2.2.1
  · exact (onmessage_preserves st raw).2.2.2.2

/-- C8 counterexample: a `market_data` frame whose `data` is the bare
number 42 — valid JSON, structurally invalid payload, hence malformed in
the claim's sense — passes the truthiness guard and is written into the
cache: the connected client's empty AAPL slot becomes the junk payload,
so the frame is NOT discarded without modifying the market data cache. -/
theorem C8_counterexample :
    marketDataGuard invalidDataMsg = true ∧
    connectedState.marketData "AAPL" = none ∧
    ClientState.marketData
      (onmessage connectedState (some invalidDataMsg)) "AAPL" =
      some (MarketPayload.malformed "42") := by decide

/-- C8 amended: a frame that fails to parse (`raw = none`) or whose
decoded form fails the truthiness guard (unrecognized `type`, missing or
empty `symbol`, missing or falsy `data`) leaves the market-data cache
untouched at every symbol; but the guard does no structural validation,
so a `market_data` frame with a present truthy `data` value of the wrong
shape is written into the cache.  In all cases — any frame `raw2`
whatsoever, junk payloads included — the socket, the connection flags
and the reconnect machinery are untouched: one malformed frame never
closes the connection, and a parsed frame is still reported via
`lastMessage`, a parse failure via the logged error. -/
theorem C8_amended (st : ClientState) (t : String)
    (raw raw2 : Option WebSocketMessage)
    (hmal : raw = none ∨ ∃ m, raw = some m ∧ marketDataGuard m = false) :
    (onmessage st raw).marketData t = st.marketData t ∧
    (onmessage st raw2).ws = st.ws ∧
    (onmessage st raw2).isConnected = st.isConnected ∧
    (onmessage st raw2).connectionStatus = st.connectionStatus ∧
    (onmessage st raw2).pendingReconnect = st.pendingReconnect := by
  have hp := onmessage_preserves st raw2
  refine ⟨?_, hp.1, hp.2.1, hp.2.2.1, hp.2.2.2.2⟩
  rcases hmal with h | ⟨m, hm, hg⟩
  · subst h
    simp [onmessage]
  · subst hm
    simp [onmessage, hg]

/-- C8 witness: an inbound frame of unrecognized type `mystery` leaves
the connected client's cache entry for AAPL unchanged, and even the
guard-passing junk-payload frame leaves the socket and all connection
state unchanged. -/
theorem C8_witness :
    (onmessage connectedState (some bogusMsg)).marketData "AAPL" =
      connectedState.marketData "AAPL" ∧
    (onmessage connectedState (some invalidDataMsg)).ws =
      connectedState.ws ∧
    (onmessage connectedState (some invalidDataMsg)).isConnected =
      connectedState.isConnected ∧
    (onmessage connectedState (some invalidDataMsg)).connectionStatus =
      connectedState.connectionStatus ∧
    (onmessage connectedState (some invalidDataMsg)).pendingReconnect =
      connectedState.pendingReconnect :=
  C8_amended connectedState "AAPL" (some bogusMsg) (some invalidDataMsg)
    (Or.inr ⟨bogusMsg, rfl, by decide⟩)

/-- C9: an accepted `market_data` frame for symbol `sym` updates only the
cache slot of `sym`: the slot of every other symbol `t` is exactly what
it was before, and the provider's watchlist is untouched (no message
handler exists outside the hook). -/
theorem C9_pointwise_update (a : AppState) (m : WebSocketMessage)
    (sym t : String) (d : MarketPayload) (hg : marketDataGuard m = true)
    (hs : m.symbol = some sym) (hd : m.data = some d) (ht : t ≠ sym) :
    (appOnMessage a (some m)).watchlist = a.watchlist ∧
    (appOnMessage a (some m)).client.marketData sym = some d ∧
    (appOnMessage a (some m)).client.marketData t =
      a.client.marketData t := by
  refine ⟨rfl, ?_, ?_⟩
  · simp [appOnMessage, onmessage, hg, hs, hd, cacheUpdate]
  · simp [appOnMessage, onmessage, hg, hs, hd, cacheUpdate, ht]

/-- C9 witness: a frame for AAPL on a two-symbol watchlist rewrites the
AAPL slot, leaves the MSFT slot as it was, and keeps the watchlist. -/
theorem C9_witness :
    (appOnMessage { client := connectedState, watchlist := ["AAPL", "MSFT"] }
        (some msgT1)).watchlist = ["AAPL", "MSFT"] ∧
    (appOnMessage { client := connectedState, watchlist := ["AAPL", "MSFT"] }
        (some msgT1)).client.marketData "AAPL" =
      some (MarketPayload.record recT1) ∧
    (appOnMessage { client := connectedState, watchlist := ["AAPL", "MSFT"] }
        (some msgT1)).client.marketData "MSFT" =
      connectedState.marketData "MSFT" :=
  C9_pointwise_update
    { client := connectedState, watchlist := ["AAPL", "MSFT"] } msgT1
    "AAPL" "MSFT" (MarketPayload.record recT1) (by decide) rfl rfl
    (by decide)

/-- C10: while the socket is not OPEN, `subscribe` and `unsubscribe`
send nothing — `sendMessage` only logs a warning — change no state, and
buffer nothing (the state has no queue): prefixing either call to any
later event sequence yields exactly the same states and the same frames
as running that sequence without the call, so nothing is ever replayed
on a later connection. -/
theorem C10_silent_drop (st : ClientState) (symbols : List String)
    (es : List ClientEvent) (hclosed : st.ws ≠ some ReadyState.opened) :
    subscribe st symbols = [] ∧
    unsubscribe st symbols = [] ∧
    step st (ClientEvent.callSubscribe symbols) = (st, []) ∧
    step st (ClientEvent.callUnsubscribe symbols) = (st, []) ∧
    run st (ClientEvent.callSubscribe symbols :: es) = run st es ∧
    run st (ClientEvent.callUnsubscribe symbols :: es) = run st es := by
  have hsub : subscribe st symbols = [] := by
    simp [subscribe, sendMessage, hclosed]
  have hunsub : unsubscribe st symbols = [] := by
    simp [unsubscribe, sendMessage, hclosed]
  refine ⟨hsub, hunsub, ?_, ?_, ?_, ?_⟩
  · simp [step, hsub]
  · simp [step, hunsub]
  · simp [run, step, hsub]
  · simp [run, step, hunsub]

/-- C10 witness: a closed fresh client dropping a subscribe call before
a reconnect attempt. -/
theorem C10_witness :
    subscribe initialState ["AAPL"] = [] ∧
    unsubscribe initialState ["AAPL"] = [] ∧
    step initialState (ClientEvent.callSubscribe ["AAPL"]) =
      (initialState, []) ∧
    step initialState (ClientEvent.callUnsubscribe ["AAPL"]) =
      (initialState, []) ∧
    run initialState
        (ClientEvent.callSubscribe ["AAPL"] :: [ClientEvent.callConnect]) =
      run initialState [ClientEvent.callConnect] ∧
    run initialState
        (ClientEvent.callUnsubscribe ["AAPL"] :: [ClientEvent.callConnect]) =
      run initialState [ClientEvent.callConnect] :=
  C10_silent_drop initialState ["AAPL"] [ClientEvent.callConnect]
    (by decide)

end MarketClient
